import Mathlib

/-!
Verification of the profiler-invocation and report-ingestion pipeline of
the repository perf_record_to_NewRelic (src/perf_record_newrelic.c).

The C program is shallowly embedded: the argument-sanitizing loop of
execute_perf_record_and_program becomes a recursive function on lists of
strings, the temp-filename retry loop and the failure-code paths become a
function over an explicit environment of oracle inputs (interrupt-flag
readings, stat results, calloc and fork outcomes), and the report-line
parsing of upload_perf_report_to_NewRelic becomes a character-level
scanner mirroring the sscanf format string, with real-number (rational)
semantics standing in for the C float and double arithmetic.
-/

namespace PerfRecordNR

/-! ## String helpers

The C code compares byte prefixes with strncmp and inspects the first
character of argv elements.  We model C strings as Lean strings and work
on their character lists. -/

/-- Model of strncmp(s, p, strlen p) == 0: p is a byte prefix of s. -/
def strStarts (p s : String) : Bool := p.data.isPrefixOf s.data

/-- Model of the C test argv[i][0] == the dash character (an empty string
has first byte NUL, which is not a dash). -/
def startsDash (s : String) : Bool :=
  match s.data with
  | [] => false
  | c :: _ => c == '-'

/-- An element that the sanitizing loop recognizes as an output-path
option spelling: a --output= form or any -o form (fused or bare). -/
def isOutputOpt (s : String) : Bool := strStarts "--output=" s || strStarts "-o" s

/-! ## Argument Sanitizer

Embeds the while loop at src/perf_record_newrelic.c lines 455-476.
The C loop keeps a flag still_in_perf_record_options, initially 1; while
the flag is 1 it drops --output=... elements, drops -o<file> elements,
and drops a bare -o together with the following element; a kept element
whose first byte is not a dash clears the flag, after which every element
is copied verbatim.  The flag is represented here by returning the
untouched remainder of the list as soon as a non-dash element is kept. -/

def sanitize : List String → List String
  | [] => []
  | a :: rest =>
    if strStarts "--output=" a then
      sanitize rest
    else if strStarts "-o" a then
      if a = "-o" then
        match rest with
        | [] => []
        | _ :: rest2 => sanitize rest2
      else
        sanitize rest
    else if startsDash a then
      a :: sanitize rest
    else
      a :: rest

example : sanitize ["--output=a", "prog", "-o", "x"] = ["prog", "-o", "x"] := by decide
example : sanitize ["-o", "f", "-e", "cycles", "prog", "-v"] = ["-e", "cycles", "prog", "-v"] := by decide
example : sanitize ["-ofile", "prog"] = ["prog"] := by decide
example : sanitize ["-o"] = [] := by decide
example : sanitize ["-e", "--output=x", "prog"] = ["-e", "prog"] := by decide

/-- The removals the sanitizing loop is allowed to make, as an inductive
relation between the input list and the produced list: while still in the
profiler-option region it may drop a --output= element, drop a bare -o
together with the element that follows it (or alone at the end of the
list), drop a fused -o element, and must keep any other dash element; a
kept non-dash element ends the region and the remainder passes through
verbatim. -/
inductive OutputOptRemoval : List String → List String → Prop
  | nil : OutputOptRemoval [] []
  | dropLong (a : String) (r out : List String) :
      strStarts "--output=" a = true → OutputOptRemoval r out →
      OutputOptRemoval (a :: r) out
  | dropShortSep (v : String) (r out : List String) :
      OutputOptRemoval r out → OutputOptRemoval ("-o" :: v :: r) out
  | dropShortEnd : OutputOptRemoval ["-o"] []
  | dropShortFused (a : String) (r out : List String) :
      strStarts "-o" a = true → a ≠ "-o" → OutputOptRemoval r out →
      OutputOptRemoval (a :: r) out
  | keepOpt (a : String) (r out : List String) :
      startsDash a = true → strStarts "--output=" a = false →
      strStarts "-o" a = false → OutputOptRemoval r out →
      OutputOptRemoval (a :: r) (a :: out)
  | keepProgram (a : String) (r : List String) :
      startsDash a = false → strStarts "--output=" a = false →
      strStarts "-o" a = false → OutputOptRemoval (a :: r) (a :: r)

lemma sanitize_dropLong (a : String) (rest : List String)
    (h : strStarts "--output=" a = true) : sanitize (a :: rest) = sanitize rest := by
  rw [sanitize.eq_def]
  simp [h]

lemma sanitize_dropShortEnd : sanitize ["-o"] = [] := by decide

lemma sanitize_dropShortSep (v : String) (rest : List String) :
    sanitize ("-o" :: v :: rest) = sanitize rest := by
  rw [sanitize.eq_def]
  simp [show strStarts "--output=" "-o" = false by decide,
        show strStarts "-o" "-o" = true by decide]

lemma sanitize_dropShortFused (a : String) (rest : List String)
    (h1 : ¬ strStarts "--output=" a = true) (h2 : strStarts "-o" a = true)
    (h3 : ¬ a = "-o") : sanitize (a :: rest) = sanitize rest := by
  rw [sanitize.eq_def]
  simp [h1, h2, h3]

lemma sanitize_keepOpt (a : String) (rest : List String)
    (h1 : ¬ strStarts "--output=" a = true) (h2 : ¬ strStarts "-o" a = true)
    (h3 : startsDash a = true) : sanitize (a :: rest) = a :: sanitize rest := by
  rw [sanitize.eq_def]
  simp [h1, h2, h3]

lemma sanitize_keepProgram (a : String) (rest : List String)
    (h1 : ¬ strStarts "--output=" a = true) (h2 : ¬ strStarts "-o" a = true)
    (h3 : ¬ startsDash a = true) : sanitize (a :: rest) = a :: rest := by
  rw [sanitize.eq_def]
  simp [h1, h2, h3]

lemma sanitize_removal : ∀ args : List String, OutputOptRemoval args (sanitize args) := by
  intro args
  induction args using sanitize.induct with
  | case1 => exact OutputOptRemoval.nil
  | case2 a rest h ih =>
    rw [sanitize_dropLong a rest h]
    exact OutputOptRemoval.dropLong a rest _ h ih
  | case3 h1 h2 =>
    rw [sanitize_dropShortEnd]
    exact OutputOptRemoval.dropShortEnd
  | case4 v rest h1 h2 ih =>
    rw [sanitize_dropShortSep v rest]
    exact OutputOptRemoval.dropShortSep v rest _ ih
  | case5 a rest h1 h2 h3 ih =>
    rw [sanitize_dropShortFused a rest h1 h2 h3]
    exact OutputOptRemoval.dropShortFused a rest _ h2 h3 ih
  | case6 a rest h1 h2 h3 ih =>
    rw [sanitize_keepOpt a rest h1 h2 h3]
    exact OutputOptRemoval.keepOpt a rest _ h3
      (by simpa using h1) (by simpa using h2) ih
  | case7 a rest h1 h2 h3 =>
    rw [sanitize_keepProgram a rest h1 h2 h3]
    exact OutputOptRemoval.keepProgram a rest
      (by simpa using h3) (by simpa using h1) (by simpa using h2)

lemma sanitize_sublist : ∀ args : List String, (sanitize args).Sublist args := by
  intro args
  induction args using sanitize.induct with
  | case1 => rw [show sanitize [] = [] from by decide]
  | case2 a rest h ih =>
    rw [sanitize_dropLong a rest h]
    exact ih.cons a
  | case3 h1 h2 =>
    rw [sanitize_dropShortEnd]
    simp
  | case4 v rest h1 h2 ih =>
    rw [sanitize_dropShortSep v rest]
    exact (ih.cons v).cons "-o"
  | case5 a rest h1 h2 h3 ih =>
    rw [sanitize_dropShortFused a rest h1 h2 h3]
    exact ih.cons a
  | case6 a rest h1 h2 h3 ih =>
    rw [sanitize_keepOpt a rest h1 h2 h3]
    exact ih.cons₂ a
  | case7 a rest h1 h2 h3 =>
    rw [sanitize_keepProgram a rest h1 h2 h3]

lemma sanitize_shape : ∀ args : List String, ∃ opts n,
    sanitize args = opts ++ args.drop n ∧
    (∀ x ∈ opts, startsDash x = true ∧ isOutputOpt x = false) ∧
    (∀ a l, args.drop n = a :: l → startsDash a = false) := by
  intro args
  induction args using sanitize.induct with
  | case1 => exact ⟨[], 0, by decide, by simp, by simp⟩
  | case2 a rest h ih =>
    obtain ⟨opts, n, he, hopts, hdrop⟩ := ih
    exact ⟨opts, n + 1, by rw [sanitize_dropLong a rest h, he]; rfl, hopts,
      by simpa using hdrop⟩
  | case3 h1 h2 =>
    exact ⟨[], 1, by rw [sanitize_dropShortEnd]; rfl, by simp, by simp⟩
  | case4 v rest h1 h2 ih =>
    obtain ⟨opts, n, he, hopts, hdrop⟩ := ih
    exact ⟨opts, n + 2, by rw [sanitize_dropShortSep v rest, he]; rfl, hopts,
      by simpa using hdrop⟩
  | case5 a rest h1 h2 h3 ih =>
    obtain ⟨opts, n, he, hopts, hdrop⟩ := ih
    exact ⟨opts, n + 1, by rw [sanitize_dropShortFused a rest h1 h2 h3, he]; rfl, hopts,
      by simpa using hdrop⟩
  | case6 a rest h1 h2 h3 ih =>
    obtain ⟨opts, n, he, hopts, hdrop⟩ := ih
    refine ⟨a :: opts, n + 1,
      by rw [sanitize_keepOpt a rest h1 h2 h3, he]; rfl, ?_, by simpa using hdrop⟩
    intro x hx
    rcases List.mem_cons.mp hx with hx | hx
    · subst hx
      refine ⟨h3, ?_⟩
      simp only [isOutputOpt, Bool.or_eq_false_iff]
      exact ⟨by simpa using h1, by simpa using h2⟩
    · exact hopts x hx
  | case7 a rest h1 h2 h3 =>
    refine ⟨[], 0, by rw [sanitize_keepProgram a rest h1 h2 h3]; rfl, by simp, ?_⟩
    intro b l hb
    simp only [List.drop_zero] at hb
    cases hb
    simpa using h3

/-! ## Index-level model of the sanitizing loop

A second embedding of the same while loop, faithful to its index
arithmetic: src_idx advances by 1 or by 2 (after a bare -o), the loop
guard is src_idx < argc, and every read of argv goes through a bounds
checked lookup that yields none on an out-of-bounds index.  This model
settles the memory-safety claim about a trailing bare -o. -/

def sanitizeLoop (args : List String) (flag : Bool) (i : ℕ) : Option (List String) :=
  if h : i < args.length then
    match args.get? i with
    | none => none
    | some a =>
      if flag && strStarts "--output=" a then
        sanitizeLoop args flag (i + 1)
      else if flag && strStarts "-o" a then
        if a = "-o" then
          sanitizeLoop args flag (i + 2)
        else
          sanitizeLoop args flag (i + 1)
      else
        Option.map (fun t => a :: t) (sanitizeLoop args (flag && startsDash a) (i + 1))
  else
    some []
termination_by args.length - i
decreasing_by all_goals omega

lemma drop_cons_of_get {α : Type} {l : List α} {i : ℕ} {a : α}
    (hget : l.get? i = some a) : l.drop i = a :: l.drop (i + 1) := by
  induction l generalizing i with
  | nil => simp at hget
  | cons x xs ih =>
    cases i with
    | zero =>
      simp only [List.get?] at hget
      cases hget
      rfl
    | succ n =>
      simp only [List.get?] at hget
      simpa [List.drop] using ih hget

lemma drop_cons_next {α : Type} {l : List α} {i : ℕ} {a : α} {r : List α}
    (h : l.drop i = a :: r) : l.drop (i + 1) = r := by
  have h2 : List.drop 1 (List.drop i l) = r := by rw [h]; rfl
  rw [List.drop_drop] at h2
  exact h2

lemma drop_nil_next {α : Type} {l : List α} {i : ℕ}
    (h : l.drop i = []) : l.drop (i + 1) = [] := by
  have h2 : List.drop 1 (List.drop i l) = ([] : List α) := by rw [h]; rfl
  rw [List.drop_drop] at h2
  exact h2

lemma drop_len_nil {α : Type} {l : List α} {i : ℕ} (h : l.length ≤ i) :
    l.drop i = [] := by
  induction l generalizing i with
  | nil => simp
  | cons x xs ih =>
    cases i with
    | zero => simp at h
    | succ n => simpa using ih (Nat.le_of_succ_le_succ (by simpa using h))

lemma get_of_lt_length {α : Type} {l : List α} {i : ℕ}
    (h : i < l.length) : ∃ a, l.get? i = some a := by
  induction l generalizing i with
  | nil => simp at h
  | cons x xs ih =>
    cases i with
    | zero => exact ⟨x, rfl⟩
    | succ n => exact ih (by simpa using h)

/-- Every read the loop performs is in bounds, and the index-level loop
computes exactly the list-level sanitizer when started with the flag set
(and the verbatim remainder once the flag is cleared). -/
lemma sanitizeLoop_eq (args : List String) : ∀ (flag : Bool) (i : ℕ),
    sanitizeLoop args flag i =
      some (if flag then sanitize (args.drop i) else args.drop i) := by
  intro flag i
  induction flag, i using sanitizeLoop.induct args with
  | case1 flag i h hget =>
    obtain ⟨a, ha⟩ := get_of_lt_length h
    rw [ha] at hget
    cases hget
  | case2 flag i h a hget hcond ih =>
    cases flag with
    | false => simp at hcond
    | true =>
      have hpref : strStarts "--output=" a = true := by simpa using hcond
      rw [sanitizeLoop]
      simp only [dif_pos h, hget]
      simp [hpref, ih, drop_cons_of_get hget,
        sanitize_dropLong a (args.drop (i + 1)) hpref]
  | case3 flag i h hget hc1 hc2 ih =>
    cases flag with
    | false => simp at hc2
    | true =>
      have hc1' : strStarts "--output=" "-o" = false := by decide
      rw [sanitizeLoop]
      simp only [dif_pos h, hget]
      rcases hsplit : args.drop (i + 1) with _ | ⟨v, rest2⟩
      · simp [hc1', ih, drop_cons_of_get hget, hsplit,
          sanitize_dropShortEnd, drop_nil_next hsplit,
          show sanitize [] = [] from by decide,
          show strStarts "-o" "-o" = true from by decide]
      · simp [hc1', ih, drop_cons_of_get hget, hsplit,
          sanitize_dropShortSep v rest2, drop_cons_next hsplit,
          show strStarts "-o" "-o" = true from by decide]
  | case4 flag i h a hget hc1 hc2 hne ih =>
    cases flag with
    | false => simp at hc2
    | true =>
      have hpref : strStarts "-o" a = true := by simpa using hc2
      have hc1' : ¬ strStarts "--output=" a = true := by simpa using hc1
      rw [sanitizeLoop]
      simp only [dif_pos h, hget]
      simp [hc1', hpref, hne, ih, drop_cons_of_get hget,
        sanitize_dropShortFused a (args.drop (i + 1)) hc1' hpref hne]
  | case5 flag i h a hget hc1 hc2 ih =>
    cases flag with
    | false =>
      rw [sanitizeLoop]
      simp only [dif_pos h, hget]
      simp only [Bool.false_and] at ih
      simp [ih, drop_cons_of_get hget]
    | true =>
      have hc1' : ¬ strStarts "--output=" a = true := by simpa using hc1
      have hc2' : ¬ strStarts "-o" a = true := by simpa using hc2
      rw [sanitizeLoop]
      simp only [dif_pos h, hget]
      cases hdash : startsDash a with
      | false =>
        simp only [Bool.true_and, hdash] at ih
        simp [hc1', hc2', hdash, ih, drop_cons_of_get hget,
          sanitize_keepProgram a (args.drop (i + 1)) hc1' hc2' (by simp [hdash])]
      | true =>
        simp only [Bool.true_and, hdash] at ih
        simp [hc1', hc2', hdash, ih, drop_cons_of_get hget,
          sanitize_keepOpt a (args.drop (i + 1)) hc1' hc2' hdash]
  | case6 flag i h =>
    rw [sanitizeLoop]
    simp only [dif_neg h]
    simp [drop_len_nil (show args.length ≤ i by omega),
      show sanitize [] = [] from by decide]

/-! ## Report Parser / Attributor

Embeds the line-processing loop of upload_perf_report_to_NewRelic
(src/perf_record_newrelic.c lines 539-606).  The loop skips lines whose
first byte is NUL, a newline or the comment character, then applies
sscanf with a format that scans a float, a literal percent sign, a
discarded token, a stored token (the module), a second discarded token
and a second stored token (the symbol).  The C float and double
arithmetic is modelled with exact rationals; the six-decimal %.06f
formatting is modelled by rounding the exact value at the sixth decimal.

The C code never checks the sscanf return value: on a line where fewer
than the three conversions succeed, it goes on to read variables that
were never assigned (undefined behavior in C).  That path is modelled by
the distinguished outcome LineOutcome.unspecified. -/

/-- Whitespace bytes recognized by sscanf token skipping. -/
def isWs (c : Char) : Bool := c == ' ' || c == '\t' || c == '\n'

/-- Skip leading whitespace, as every sscanf conversion here does. -/
def skipWs : List Char → List Char
  | [] => []
  | c :: cs => if isWs c then skipWs cs else c :: cs

/-- Scan one maximal non-empty whitespace-delimited token (%s / %ms);
fails at end of input like sscanf does. -/
def scanTok (cs : List Char) : Option (List Char × List Char) :=
  let cs2 := skipWs cs
  let t := cs2.takeWhile (fun c => !isWs c)
  if t.isEmpty then none else some (t, cs2.dropWhile (fun c => !isWs c))

/-- Value of a digit string read in base 10. -/
def digitsVal (ds : List Char) : ℕ := ds.foldl (fun a c => 10 * a + (c.toNat - 48)) 0

/-- Scan an unsigned decimal float (digits, optional point and more
digits), the form the percent column of the report uses; fails when no
digit is present, as the %f conversion then fails.  The value is kept
exactly as a mantissa and a decimal scale: the scanned number is
mantissa divided by 10 to the scale. -/
def scanFloat (cs : List Char) : Option ((ℕ × ℕ) × List Char) :=
  let ds := cs.takeWhile Char.isDigit
  let r1 := cs.dropWhile Char.isDigit
  match r1 with
  | '.' :: r2 =>
    let fs := r2.takeWhile Char.isDigit
    if ds.isEmpty && fs.isEmpty then none
    else some ((digitsVal ds * 10 ^ fs.length + digitsVal fs, fs.length),
               r2.dropWhile Char.isDigit)
  | _ => if ds.isEmpty then none else some ((digitsVal ds, 0), r1)

/-- The rational value denoted by a scanned mantissa and scale. -/
def floatVal (m : ℕ × ℕ) : ℚ := (m.1 : ℚ) / (10 : ℚ) ^ m.2

/-- The sscanf format of line 559 applied to one report line: a float
percent, a literal percent sign, a discarded token, the stored module
token, a discarded token, the stored symbol token.  Returns none when
fewer than the three stored conversions succeed. -/
def scanPerfLine (line : String) : Option ((ℕ × ℕ) × String × String) := do
  let (percent, r1) ← scanFloat (skipWs line.data)
  match skipWs r1 with
  | '%' :: r2 => do
    let (_, r3) ← scanTok r2
    let (so_object, r4) ← scanTok r3
    let (_, r5) ← scanTok r4
    let (symbol, _) ← scanTok r5
    some (percent, String.mk so_object, String.mk symbol)
  | _ => none

/-- Render n (a count of millionths) with six forced decimals. -/
def sixDec (n : ℕ) : String :=
  let fpStr := Nat.repr (n % 1000000)
  Nat.repr (n / 1000000) ++ "." ++
    String.mk (List.replicate (6 - fpStr.length) '0') ++ fpStr

/-- The millionths count nearest to num / den (den positive), rounding
half up: the floor of num / den * 10^6 + 1/2 as one integer division. -/
def roundMillionths (num : ℤ) (den : ℕ) : ℤ :=
  (2 * num * 1000000 + den) / ((2 * den : ℕ) : ℤ)

/-- Model of snprintf %.06f applied to the exact value num / den with
den positive: round the magnitude at the sixth decimal, keep the sign
of the value. -/
def fmt6Pair (num : ℤ) (den : ℕ) : String :=
  if num < 0 then "-" ++ sixDec (roundMillionths (-num) den).toNat
  else sixDec (roundMillionths num den).toNat

/-- Model of %.06f on an abstract rational value, for relating the
integer formatting above to the real-valued reading of the code. -/
def fmt6Q (q : ℚ) : String :=
  if q < 0 then "-" ++ sixDec (round (-q * 1000000)).toNat
  else sixDec (round (q * 1000000)).toNat

example : fmt6Pair 5001 10000 = "0.500100" := by decide
example : fmt6Pair 0 100 = "0.000000" := by decide
example : fmt6Pair 7 2 = "3.500000" := by decide

lemma roundMillionths_eq (num : ℤ) (den : ℕ) (h : 0 < den) :
    roundMillionths num den = round ((num : ℚ) / (den : ℚ) * 1000000) := by
  have hd : (den : ℚ) ≠ 0 := by positivity
  rw [roundMillionths, round_eq]
  have harg : (num : ℚ) / (den : ℚ) * 1000000 + 1 / 2 =
      ((2 * num * 1000000 + den : ℤ) : ℚ) / (((2 * den : ℕ) : ℤ) : ℚ) := by
    push_cast
    field_simp
    ring
  rw [harg, show ((((2 * den : ℕ) : ℤ)) : ℚ) = (((2 * den : ℕ)) : ℚ) by push_cast; ring_nf,
    Rat.floor_intCast_div_natCast]

/-- The integer-level formatter agrees with %.06f on the exact rational
value num / den whenever den is positive. -/
lemma fmt6Pair_eq (num : ℤ) (den : ℕ) (h : 0 < den) :
    fmt6Pair num den = fmt6Q ((num : ℚ) / (den : ℚ)) := by
  have hd : (0 : ℚ) < (den : ℚ) := by positivity
  rw [fmt6Pair, fmt6Q]
  rcases lt_or_le num 0 with hneg | hpos
  · rw [if_pos hneg, if_pos (div_neg_of_neg_of_pos (by exact_mod_cast hneg) hd),
      roundMillionths_eq _ _ h]
    congr 3
    push_cast
    ring
  · rw [if_neg (by omega), if_neg (not_lt.mpr (div_nonneg (by exact_mod_cast hpos) hd.le)),
      roundMillionths_eq _ _ h]

/-- Total program duration as the C code computes it at lines 540-541:
tv_sec plus tv_nsec divided by 10^9.  Both operands of that division
are integers, so the quotient truncates and the value the double ends
up holding is the whole integer tv_sec (plus 1 only if tv_nsec reached
a full second). -/
def total_progr_duration (tv_sec : ℤ) (tv_nsec : ℕ) : ℤ :=
  tv_sec + ((tv_nsec / 1000000000 : ℕ) : ℤ)

/-- Total program duration as the specification describes it: seconds
plus the sub-second remainder.  Modelled from the spec: the measured
elapsed time in seconds plus the (normalized, non-negative) nanosecond
remainder as a fraction of a second. -/
def totalDurationSpec (tv_sec : ℤ) (tv_nsec : ℕ) : ℚ :=
  (tv_sec : ℚ) + (tv_nsec : ℚ) / 1000000000

/-- What one iteration of the report loop does with one line. -/
inductive LineOutcome
  | skipped
  | unspecified
  | dropped
  | emitted (attr v : String)
deriving DecidableEq

/-- One iteration of the while loop at lines 547-606, for the line read
by getline (including its trailing newline) and the program duration
timespec the loop's total duration is computed from.  Lines whose first
byte is NUL, newline or the comment character are skipped; a line on
which sscanf assigns fewer than three values leads the C code to read
unassigned variables (undefined behavior), modelled as
LineOutcome.unspecified; otherwise the attribute name
Custom/ct_<symbol>@<so_object> (truncated by snprintf to the 255-byte
identifier bound) and the six-decimal string of
percent / 100 * total_progr_duration are built (the value is the exact
rational mant * total over 10^scale * 100, formatted by fmt6Pair, which
by fmt6Pair_eq is %.06f of that exact value), the line is dropped when
that string is exactly 0.000000, and it is emitted via
newrelic_transaction_add_attribute otherwise. -/
def processLine (tv_sec : ℤ) (tv_nsec : ℕ) (line : String) : LineOutcome :=
  match line.data with
  | [] => LineOutcome.skipped
  | c :: _ =>
    if c = '\n' ∨ c = '#' then LineOutcome.skipped
    else
      match scanPerfLine line with
      | none => LineOutcome.unspecified
      | some ((mant, scale), so_object, symbol) =>
        let attr := String.mk
          (("Custom/ct_" ++ symbol ++ "@" ++ so_object).data.take 255)
        let total := total_progr_duration tv_sec tv_nsec
        let v := fmt6Pair (mant * total) (10 ^ scale * 100)
        if v = "0.000000" then LineOutcome.dropped
        else LineOutcome.emitted attr v

/-- The duration string processLine builds is %.06f of the exact value
percent / 100 * total, the expression at line 569 of the source. -/
lemma relative_duration_eq (mant scale : ℕ) (t : ℤ) :
    fmt6Pair (mant * t) (10 ^ scale * 100) =
      fmt6Q (floatVal (mant, scale) / 100 * (t : ℚ)) := by
  rw [fmt6Pair_eq _ _ (by positivity)]
  congr 1
  rw [floatVal]
  push_cast
  field_simp

/-- Whether an outcome sends an attribute to the telemetry collaborator. -/
def isEmitted : LineOutcome → Bool
  | LineOutcome.emitted _ _ => true
  | _ => false

example :
    scanPerfLine "16.67%  prog  libc-2.17.so  [.] __fxstat64\n" =
      some ((1667, 2), "libc-2.17.so", "__fxstat64") := by decide

example :
    processLine 3 0 "16.67%  prog  libc-2.17.so  [.] __fxstat64\n" =
      LineOutcome.emitted "Custom/ct___fxstat64@libc-2.17.so" "0.500100" := by decide

example : processLine 3 0 "\n" = LineOutcome.skipped := by decide
example : processLine 3 0 "# Overhead  Command  Shared Object\n" = LineOutcome.skipped := by decide
example : processLine 3 0 "hello world\n" = LineOutcome.unspecified := by decide
example : processLine 3 0 "0.00%  prog  mod.so  [.] sym\n" = LineOutcome.dropped := by decide

/-! ## Profiler Runner and wrapper

Embeds create_a_temp_filename (lines 381-419),
execute_perf_record_and_program (lines 421-514) and the control flow of
newrelic_perf_counters_wrapper (lines 207-378).  The outside world is an
explicit oracle environment: successive reads of the volatile interrupt
flag are the values of a stream indexed by read count, the result of
stat on the i-th random temp-path candidate is a stream of booleans
(true when the path is free), and calloc, fork, the child exit status,
the stat and unlink of the capture artifact and the outcomes of the
telemetry calls are fixed oracle fields.  The real flag is only ever
set (never cleared) by the signal handler, which theorems needing it
state as a monotonicity hypothesis on the stream. -/

structure WrapperEnv where
  txBeginOk : Bool
  segRecordOk : Bool
  segReportOk : Bool
  flag : ℕ → Bool
  free : ℕ → Bool
  callocOk : Bool
  forkOk : Bool
  childExit : ℕ
  uninitExit : ℤ
  artifactExists : Bool
  now : ℤ
  mtime : ℤ
  unlinkOk : Bool

/-- The retry loop of create_a_temp_filename: at most fuel more
attempts, reading the interrupt flag once per attempt (read counter t,
returned updated), candidate number i; returns the C result (0 failure,
1 success) and the next flag-read index. -/
def createTempLoop (flag free : ℕ → Bool) : ℕ → ℕ → ℕ → ℤ × ℕ
  | t, _, 0 => (0, t)
  | t, i, fuel + 1 =>
    if flag t = true then (0, t + 1)
    else if free i = true then (1, t + 1)
    else createTempLoop flag free (t + 1) (i + 1) fuel

/-- create_a_temp_filename: up to ten candidate paths, each attempt
first polling the interrupt flag (returning failure 0 when set) and
succeeding (1) when stat reports the candidate free. -/
def create_a_temp_filename (flag free : ℕ → Bool) (t : ℕ) : ℤ × ℕ :=
  createTempLoop flag free t 0 10

/-- Events observed by the collaborators during one run. -/
inductive Event
  | txBegin
  | txSetup
  | segRecordBegin
  | spawn
  | segRecordEnd
  | errorNotice (who : String)
  | segReportBegin
  | upload
  | segReportEnd
  | unlinkArtifact
  | txEnd
deriving DecidableEq

/-- The error table at lines 312-318, indexed by the absolute value of
the negative status code (messages abridged). -/
def errors_in_execute_perf_record : List String :=
  ["0", "no temp filename for perf.data file", "calloc failed",
   "interrupted by a signal", "fork failed"]

/-- execute_perf_record_and_program starting at flag-read index t:
returns the status code, the next flag-read index and the events it
caused (spawn when fork ran).  Status codes: -1 when
create_a_temp_filename returned 0, -2 when calloc failed, -3 when the
interrupt flag was set at the pre-fork check of line 482 or at the
post-wait check of line 501, -4 when fork failed, the child exit status
otherwise. -/
def executeT (env : WrapperEnv) (t : ℕ) : ℤ × ℕ × List Event :=
  let c := create_a_temp_filename env.flag env.free t
  if c.1 = 0 then (-1, c.2, [])
  else if env.callocOk = false then (-2, c.2, [])
  else if env.flag c.2 = true then (-3, c.2 + 1, [])
  else if env.forkOk = false then (-4, c.2 + 1, [])
  else if env.flag (c.2 + 1) = true then (-3, c.2 + 2, [Event.spawn])
  else ((env.childExit : ℤ), c.2 + 2, [Event.spawn])

/-- The status code of execute_perf_record_and_program run on its own
(flag reads start at index 0). -/
def executeCode (env : WrapperEnv) : ℤ := (executeT env 0).1

/-- The freshness test at line 359 deciding whether the capture
artifact is deleted: strictly less than 30 seconds between now and the
artifact modification time. -/
def shouldDeleteArtifact (current_time st_mtime : ℤ) : Bool :=
  decide (current_time - st_mtime < 30)

/-- The collaborator events of one newrelic_perf_counters_wrapper run.
A failed transaction begin aborts at once; otherwise the record segment
opens, execute_perf_record_and_program runs unless the flag was already
set at the line-281 check (read index 0), the record segment closes if
it had opened, and then: flag set at the line-303 check means jump
straight to cleanup; a code in [-4,-1] sends the mapped error notice;
otherwise, when the flag is still clear at line 327 and the code is
non-negative, the report segment opens, the upload runs and the report
segment closes.  Cleanup unlinks the artifact only when stat finds it
and the freshness window test passes (an unlink failure sends an error
notice), and the transaction always ends. -/
def wrapperTrace (env : WrapperEnv) : List Event :=
  if env.txBeginOk = false then [Event.txBegin]
  else
    let step := if env.flag 0 = false then executeT env 1 else (env.uninitExit, 1, [])
    let code := step.1
    let t1 := step.2.1
    let execEvs := step.2.2
    let segEndEvs := if env.segRecordOk = true then [Event.segRecordEnd] else []
    let cleanupEvs :=
      (if env.artifactExists = true ∧ shouldDeleteArtifact env.now env.mtime = true then
        Event.unlinkArtifact ::
          (if env.unlinkOk = true then []
           else [Event.errorNotice "unlink_temp_perf_data_file"])
      else []) ++ [Event.txEnd]
    let tailEvs :=
      if env.flag t1 = true then cleanupEvs
      else if code < 0 ∧ -4 ≤ code then
        Event.errorNotice (errors_in_execute_perf_record.getD code.natAbs "") :: cleanupEvs
      else if env.flag (t1 + 1) = false ∧ 0 ≤ code then
        Event.segReportBegin :: Event.upload ::
          ((if env.segReportOk = true then [Event.segReportEnd] else []) ++ cleanupEvs)
      else cleanupEvs
    [Event.txBegin, Event.txSetup, Event.segRecordBegin] ++ execEvs ++ segEndEvs ++ tailEvs

/-- A run with nothing unusual: no interrupt, first candidate path
free, allocations and fork fine. -/
def envNormal : WrapperEnv :=
  { txBeginOk := true, segRecordOk := true, segReportOk := true,
    flag := fun _ => false, free := fun _ => true,
    callocOk := true, forkOk := true, childExit := 0, uninitExit := 0,
    artifactExists := true, now := 100, mtime := 95, unlinkOk := true }

example : executeCode envNormal = 0 := by decide
example : wrapperTrace envNormal =
    [Event.txBegin, Event.txSetup, Event.segRecordBegin, Event.spawn,
     Event.segRecordEnd, Event.segReportBegin, Event.upload, Event.segReportEnd,
     Event.unlinkArtifact, Event.txEnd] := by decide

/-- The interrupt flag is set from the very start: create_a_temp_filename
returns 0 at its first flag poll. -/
def envIntrEarly : WrapperEnv :=
  { envNormal with flag := fun _ => true }

/-- No interrupt ever, but every one of the ten candidate paths is
already occupied. -/
def envTempExhaust : WrapperEnv :=
  { envNormal with free := fun _ => false }

/-- No interrupt, temp path found, calloc fails. -/
def envAllocFail : WrapperEnv :=
  { envNormal with callocOk := false }

/-- No interrupt, temp path found, calloc fine, fork fails. -/
def envForkFail : WrapperEnv :=
  { envNormal with forkOk := false }

/-- The interrupt flag becomes set after the first flag read: temp-path
selection succeeds, then the pre-fork check at line 482 sees the flag. -/
def envIntrPreSpawn : WrapperEnv :=
  { envNormal with flag := fun i => decide (1 ≤ i) }

example : executeCode envIntrEarly = -1 := by decide
example : executeCode envTempExhaust = -1 := by decide
example : executeCode envAllocFail = -2 := by decide
example : executeCode envForkFail = -4 := by decide
example : executeCode envIntrPreSpawn = -3 := by decide

/-! ## Claim theorems -/

/-- Claim C1, counterexample: the input list has the output-path option
--output=a before its first non-dash token prog, yet the sanitized list
still contains the output-path option spelling -o (it sits after the
target program name, where the loop no longer sanitizes), so the claim
that the produced list contains no output-path option is false as
stated. -/
theorem c1_sanitize_counterexample :
    isOutputOpt "--output=a" = true ∧ startsDash "--output=a" = true ∧
    startsDash "prog" = false ∧
    sanitize ["--output=a", "prog", "-o", "x"] = ["prog", "-o", "x"] ∧
    "-o" ∈ sanitize ["--output=a", "prog", "-o", "x"] ∧
    isOutputOpt "-o" = true := by decide

/-- Claim C1 (amended): for every caller-supplied option/argument list,
the Argument Sanitizer removes only output-path options (consuming the
following element after a bare -o) from the profiler-option region,
keeps every other element (the OutputOptRemoval relation), produces a
subsequence of the input (so relative order is preserved), and the
produced list contains no output-path option before its first non-dash
element. -/
theorem c1_sanitize_amended : ∀ args : List String,
    OutputOptRemoval args (sanitize args) ∧
    (sanitize args).Sublist args ∧
    ∃ opts n, sanitize args = opts ++ args.drop n ∧
      (∀ x ∈ opts, isOutputOpt x = false) ∧
      (∀ a l, args.drop n = a :: l → startsDash a = false) := by
  intro args
  refine ⟨sanitize_removal args, sanitize_sublist args, ?_⟩
  obtain ⟨opts, n, h1, h2, h3⟩ := sanitize_shape args
  exact ⟨opts, n, h1, fun x hx => (h2 x hx).2, h3⟩

/-- Claim C1 (amended), instance at a concrete input. -/
theorem c1_sanitize_amended_witness :
    OutputOptRemoval ["--output=f", "-v", "prog"]
      (sanitize ["--output=f", "-v", "prog"]) ∧
    (sanitize ["--output=f", "-v", "prog"]).Sublist ["--output=f", "-v", "prog"] ∧
    ∃ opts n, sanitize ["--output=f", "-v", "prog"] =
        opts ++ (["--output=f", "-v", "prog"] : List String).drop n ∧
      (∀ x ∈ opts, isOutputOpt x = false) ∧
      (∀ a l, (["--output=f", "-v", "prog"] : List String).drop n = a :: l →
        startsDash a = false) :=
  c1_sanitize_amended ["--output=f", "-v", "prog"]

/-- Claim C2: sanitization is a prefix-only transformation: the
sanitizer output is a (possibly empty) run of dash-prefixed kept
options followed verbatim by the untouched suffix of the input that
starts at the first kept non-dash element; every element at or after
that element, dash-prefixed or not, is passed through unchanged and in
order. -/
theorem c2_sanitize_passthrough : ∀ args : List String, ∃ opts n,
    sanitize args = opts ++ args.drop n ∧
    (∀ x ∈ opts, startsDash x = true) ∧
    (∀ a l, args.drop n = a :: l → startsDash a = false) := by
  intro args
  obtain ⟨opts, n, h1, h2, h3⟩ := sanitize_shape args
  exact ⟨opts, n, h1, fun x hx => (h2 x hx).1, h3⟩

/-- Claim C2, instance at a concrete input whose target-program tail
contains dash-prefixed elements including an -o spelling. -/
theorem c2_sanitize_passthrough_witness :
    ∃ opts n, sanitize ["-o", "f", "-e", "prog", "-o", "x"] =
        opts ++ (["-o", "f", "-e", "prog", "-o", "x"] : List String).drop n ∧
      (∀ x ∈ opts, startsDash x = true) ∧
      (∀ a l, (["-o", "f", "-e", "prog", "-o", "x"] : List String).drop n = a :: l →
        startsDash a = false) :=
  c2_sanitize_passthrough ["-o", "f", "-e", "prog", "-o", "x"]

/-- Claim C3: blank lines and comment lines are indeed skipped with no
attribute, but a line that cannot be parsed is NOT skipped: the code
never checks the sscanf result, so on such a line it reads variables
sscanf left unassigned (undefined behavior in C, modelled as the
distinguished outcome LineOutcome.unspecified, which differs from
LineOutcome.skipped). -/
theorem c3_parser_malformed :
    processLine 3 0 "\n" = LineOutcome.skipped ∧
    processLine 3 0 "" = LineOutcome.skipped ∧
    processLine 3 0 "# Overhead  Command  Shared Object\n" = LineOutcome.skipped ∧
    processLine 3 0 "hello world\n" = LineOutcome.unspecified ∧
    LineOutcome.unspecified ≠ LineOutcome.skipped := by decide

/-- Claim C4: the concrete line of the claim with an exactly 3.0-second
duration does yield 0.500100 attributed to
Custom/ct___fxstat64@libc-2.17.so, but the total duration is NOT
seconds plus the sub-second remainder: line 541 divides tv_nsec by
10^9 in integer arithmetic, so for the timespec (3 s, 500000000 ns)
the code uses total 3 and emits 0.500100 where the claimed total 3.5
would give 0.583450. -/
theorem c4_duration_truncated :
    total_progr_duration 3 500000000 = 3 ∧
    totalDurationSpec 3 500000000 = 7 / 2 ∧
    processLine 3 500000000 "16.67%  prog  libc-2.17.so  [.] __fxstat64\n" =
      LineOutcome.emitted "Custom/ct___fxstat64@libc-2.17.so" "0.500100" ∧
    fmt6Q (floatVal (1667, 2) / 100 * totalDurationSpec 3 500000000) = "0.583450" ∧
    ("0.500100" : String) ≠ "0.583450" := by
  refine ⟨by decide, by norm_num [totalDurationSpec], by decide, ?_, by decide⟩
  have hq : floatVal (1667, 2) / 100 * totalDurationSpec 3 500000000 =
      ((583450 : ℤ) : ℚ) / ((1000000 : ℕ) : ℚ) := by
    norm_num [floatVal, totalDurationSpec]
  rw [hq, ← fmt6Pair_eq 583450 1000000 (by norm_num)]
  decide

/-- Claim C5: a parsed report line whose computed absolute duration
formats to 0.000000 at six-decimal precision is never emitted as an
attribute (the strcmp guard at line 577 jumps past the
newrelic_transaction_add_attribute call). -/
theorem c5_zero_duration_not_emitted (tv_sec : ℤ) (tv_nsec : ℕ) (line : String)
    (mant scale : ℕ) (so_object symbol : String)
    (hp : scanPerfLine line = some ((mant, scale), so_object, symbol))
    (hz : fmt6Pair (mant * total_progr_duration tv_sec tv_nsec)
      (10 ^ scale * 100) = "0.000000") :
    isEmitted (processLine tv_sec tv_nsec line) = false := by
  rw [processLine.eq_def]
  rcases hL : line.data with _ | ⟨c, cs⟩
  · rfl
  · by_cases hc : c = '\n' ∨ c = '#'
    · simp [hc, isEmitted]
    · simp [hc, hp, hz, isEmitted]

/-- Claim C5, instance at a concrete zero-percent line. -/
theorem c5_zero_duration_witness :
    isEmitted (processLine 3 0 "0.00%  prog  mod.so  [.] sym\n") = false :=
  c5_zero_duration_not_emitted 3 0 "0.00%  prog  mod.so  [.] sym\n" 0 2
    "mod.so" "sym" (by decide) (by decide)

/-- Claim C6, counterexample: with the interrupt flag already set at
the very first read, create_a_temp_filename returns 0 and
execute_perf_record_and_program returns -1, the same code it returns
for genuine temp-path exhaustion with the flag never set, so the
interrupt observed before the spawn is not always mapped to a code
distinct from temp-path exhaustion. -/
theorem c6_interrupt_code_counterexample :
    envIntrEarly.flag 0 = true ∧ executeCode envIntrEarly = -1 ∧
    envTempExhaust.flag = (fun _ => false) ∧
    executeCode envTempExhaust = -1 := by
  exact ⟨rfl, by decide, rfl, by decide⟩

/-- Claim C6 (amended): allocation failure, temp-path exhaustion,
spawn failure and an interrupt observed at the pre-spawn check map to
the pairwise distinct codes -2, -1, -4 and -3: whenever temp-path
selection succeeds, calloc succeeds and the flag is set at the
line-482 pre-fork check, the code is -3, which differs from the
exhaustion code -1; but an interrupt that is already set during
temp-path selection is reported with the exhaustion code -1 instead. -/
theorem c6_status_codes (env : WrapperEnv)
    (h1 : (create_a_temp_filename env.flag env.free 0).1 = 1)
    (h2 : env.callocOk = true)
    (h3 : env.flag (create_a_temp_filename env.flag env.free 0).2 = true) :
    executeCode env = -3 ∧
    executeCode envTempExhaust = -1 ∧ executeCode envAllocFail = -2 ∧
    executeCode envForkFail = -4 ∧
    ((-3 : ℤ) ≠ -1 ∧ (-3 : ℤ) ≠ -2 ∧ (-3 : ℤ) ≠ -4 ∧ (-1 : ℤ) ≠ -2 ∧
      (-1 : ℤ) ≠ -4 ∧ (-2 : ℤ) ≠ -4) := by
  refine ⟨?_, by decide, by decide, by decide, by decide⟩
  simp [executeCode, executeT, h1, h2, h3]

/-- Claim C6 (amended), instance: the flag becomes set right after the
successful first temp-path attempt. -/
theorem c6_status_codes_witness :
    executeCode envIntrPreSpawn = -3 ∧
    executeCode envTempExhaust = -1 ∧ executeCode envAllocFail = -2 ∧
    executeCode envForkFail = -4 ∧
    ((-3 : ℤ) ≠ -1 ∧ (-3 : ℤ) ≠ -2 ∧ (-3 : ℤ) ≠ -4 ∧ (-1 : ℤ) ≠ -2 ∧
      (-1 : ℤ) ≠ -4 ∧ (-2 : ℤ) ≠ -4) :=
  c6_status_codes envIntrPreSpawn (by decide) (by decide) (by decide)

/-- Claim C7: after parsing, the capture artifact is deleted only
inside the freshness window: an artifact whose modification time is 31
or more seconds in the past is not deleted, and one 5 seconds in the
past is deleted. -/
theorem c7_freshness_window (now mtime : ℤ) :
    (31 ≤ now - mtime → shouldDeleteArtifact now mtime = false) ∧
    (now - mtime = 5 → shouldDeleteArtifact now mtime = true) := by
  refine ⟨fun h => ?_, fun h => ?_⟩
  · show decide (now - mtime < 30) = false
    exact decide_eq_false (by omega)
  · show decide (now - mtime < 30) = true
    exact decide_eq_true (by omega)

/-- Claim C7, instance at concrete times. -/
theorem c7_freshness_witness :
    shouldDeleteArtifact 0 (-31) = false ∧ shouldDeleteArtifact 5 0 = true :=
  ⟨(c7_freshness_window 0 (-31)).1 (by norm_num),
   (c7_freshness_window 5 0).2 (by norm_num)⟩

/-- Claim C8: when the interrupt flag is set before the spawn point
(already true at the first read, and never cleared, as the signal
handler only sets it), the profiler subprocess is never spawned, the
report upload is skipped, and the telemetry transaction is still
terminated. -/
theorem c8_interrupt_skips_run (env : WrapperEnv)
    (htx : env.txBeginOk = true) (h0 : env.flag 0 = true)
    (hmono : ∀ i j : ℕ, i ≤ j → env.flag i = true → env.flag j = true) :
    Event.spawn ∉ wrapperTrace env ∧ Event.upload ∉ wrapperTrace env ∧
    Event.txEnd ∈ wrapperTrace env := by
  have h1 : env.flag 1 = true := hmono 0 1 (by omega) h0
  rw [wrapperTrace]
  simp only [htx, h0, h1]
  refine ⟨?_, ?_, ?_⟩ <;> simp <;> split_ifs <;> simp

/-- Claim C8, instance with the flag constantly set. -/
theorem c8_interrupt_witness :
    Event.spawn ∉ wrapperTrace envIntrEarly ∧
    Event.upload ∉ wrapperTrace envIntrEarly ∧
    Event.txEnd ∈ wrapperTrace envIntrEarly :=
  c8_interrupt_skips_run envIntrEarly rfl rfl (fun _ _ _ h => h)

/-- Claim C9: on an input list whose last element is the bare option
-o while still in the profiler-option region, the sanitizing loop
terminates with every argv read in bounds (the index model returns
some, never the out-of-bounds marker none) and computes exactly the
sanitized list: skipping the missing separate value only moves the
index past the loop bound, it never dereferences past the end. -/
theorem c9_trailing_dash_o_safe (args : List String)
    (hlast : args.getLast? = some "-o") :
    sanitizeLoop args true 0 = some (sanitize args) := by
  have h := sanitizeLoop_eq args true 0
  simpa using h

/-- Claim C9, instance at the one-element list consisting of the bare
-o option. -/
theorem c9_trailing_dash_o_witness :
    (["-o"] : List String).getLast? = some "-o" ∧
    sanitizeLoop ["-o"] true 0 = some (sanitize ["-o"]) :=
  ⟨by decide, c9_trailing_dash_o_safe ["-o"] (by decide)⟩

/-- Claim C10: the freshness comparison at line 359 is strict: the
artifact is deleted exactly when now minus the modification time is
strictly less than 30 seconds, so a difference of exactly 30 seconds
means no deletion. -/
theorem c10_strict_freshness (now mtime : ℤ) :
    (shouldDeleteArtifact now mtime = true ↔ now - mtime < 30) ∧
    (now - mtime = 30 → shouldDeleteArtifact now mtime = false) := by
  constructor
  · show decide (now - mtime < 30) = true ↔ _
    exact decide_eq_true_iff
  · intro h
    show decide (now - mtime < 30) = false
    exact decide_eq_false (by omega)

/-- Claim C10, instance at the boundary. -/
theorem c10_strict_freshness_witness :
    shouldDeleteArtifact 30 0 = false ∧ shouldDeleteArtifact 29 0 = true :=
  ⟨(c10_strict_freshness 30 0).2 (by norm_num),
   (c10_strict_freshness 29 0).1.mpr (by norm_num)⟩

end PerfRecordNR
